import Mathlib

/-!
Shallow embedding of `phf/go-ratelimit` (`ratelimit/net.go`), a rate-limiting
wrapper around a `net.Conn`.

Modelling conventions:
* Go `int`/`int64` values (limits, byte counts, nanosecond durations) are
  modelled as Lean `Int`.  The arithmetic in `net.go` stays far below the
  `int64` range for any realistic transfer (`timePerByte ≤ 10^9`,
  `n` bounded by a buffer length), so wrap-around is not modelled.
* Go `time.Time` values are modelled as nanosecond timestamps (`Int`), with
  `0` playing the role of Go's zero `time.Time` (`IsZero`).  A real
  `time.Now()` is always a positive timestamp.
* The underlying connection is an opaque value of an arbitrary type `α`;
  the result `(n, err)` of the single delegated call to the underlying
  `Read`/`Write`, and the values returned by the calls to `time.Now()`,
  are inputs of the embedded operation (oracle parameters).  The duration
  passed to `time.Sleep` is recorded in the outcome (`sleep`, with `0`
  meaning the sleep statement was not executed).
* Go errors are `Option String` (`none` = nil error) with the exact
  `errors.New` message strings from the source.
* Every method of `RateLimitedConn` in the source uses a *value* receiver:
  the method body mutates a copy of the receiver.  Each embedded method
  returns the final state of that local copy (field `recv` of the outcome,
  or the second component for the limit setters); the caller-visible
  semantics of a Go method call, in which this updated copy is discarded,
  is `callerStep` below.
-/

namespace GoRatelimit

/-- `time.Second.Nanoseconds()`: nanoseconds in one second. -/
def oneSecondNs : Int := 1000000000

/-- The struct `RateLimitedConn` from `net.go`:
embedded `net.Conn`, read/write limits in bytes per second (`0` = no limit),
and timestamps of the last actual read/write (`0` = Go's zero `time.Time`). -/
structure RateLimitedConn (α : Type) where
  conn : α
  rlim : Int
  wlim : Int
  rtime : Int
  wtime : Int
  deriving Repr, DecidableEq

/-- Outcome of one embedded `Read`/`Write` call: the `(n, err)` pair returned
to the caller, the total nanoseconds passed to `time.Sleep` (`0` when the
sleep statement is not executed), and the final state `recv` of the
value-receiver copy at `return`. -/
structure OpOutcome (α : Type) where
  n : Int
  err : Option String
  sleep : Int
  recv : RateLimitedConn α
  deriving Repr, DecidableEq

/-- `New(conn, readLimit, writeLimit)` from `net.go`.  Go returns
`(rlc net.Conn, err error)`; on the error path `rlc` stays nil, which we
model as `Except.error` (no wrapper produced). -/
def New (conn : α) (readLimit writeLimit : Int) :
    Except String (RateLimitedConn α) :=
  if readLimit < 0 ∨ writeLimit < 0 then
    Except.error "read/write limits cannot be negative"
  else
    Except.ok { conn := conn, rlim := readLimit, wlim := writeLimit,
                rtime := 0, wtime := 0 }

/-- `RateLimitedConn.Read` from `net.go`.  Oracle inputs: `un`/`uerr` is the
result of the one delegated `rlc.Conn.Read(b)`, `now1` is the value
`time.Now()` would return at the lazy-initialization statement, `now2` the
value of the `time.Now()` call after the read.  (`now1` is unused when
`rtime` is already set, exactly as the corresponding call does not happen in
the source.) -/
def RateLimitedConn.Read (rlc : RateLimitedConn α) (un : Int)
    (uerr : Option String) (now1 now2 : Int) : OpOutcome α :=
  -- fast path if there is no limit
  if rlc.rlim ≤ 0 then
    { n := un, err := uerr, sleep := 0, recv := rlc }
  else
    -- lazy initialization
    let rlc1 := if rlc.rtime = 0 then { rlc with rtime := now1 } else rlc
    -- perform the read operation (delegated result supplied as input)
    let n := un
    -- how long since the last read?
    let t := now2
    let d := t - rlc1.rtime
    -- allowed time (both operands positive here, so Go's truncating
    -- division and Lean's Int division agree)
    let timePerByte := oneSecondNs / rlc.rlim
    let timeForNBytes := timePerByte * n
    -- sleep if we have to
    let slept := if 0 < n ∧ d < timeForNBytes then timeForNBytes - d else 0
    -- remember when last read finished (on the value-receiver copy)
    { n := n, err := uerr, sleep := slept, recv := { rlc1 with rtime := t } }

/-- `RateLimitedConn.Write` from `net.go`, symmetric to `Read` with
`wlim`/`wtime` and the delegated `rlc.Conn.Write(b)`. -/
def RateLimitedConn.Write (rlc : RateLimitedConn α) (un : Int)
    (uerr : Option String) (now1 now2 : Int) : OpOutcome α :=
  -- fast path if there is no limit
  if rlc.wlim ≤ 0 then
    { n := un, err := uerr, sleep := 0, recv := rlc }
  else
    -- lazy initialization
    let rlc1 := if rlc.wtime = 0 then { rlc with wtime := now1 } else rlc
    -- perform the write operation (delegated result supplied as input)
    let n := un
    -- how long since the last write?
    let t := now2
    let d := t - rlc1.wtime
    -- allowed time
    let timePerByte := oneSecondNs / rlc.wlim
    let timeForNBytes := timePerByte * n
    -- sleep if we have to
    let slept := if 0 < n ∧ d < timeForNBytes then timeForNBytes - d else 0
    -- remember when last write finished (on the value-receiver copy)
    { n := n, err := uerr, sleep := slept, recv := { rlc1 with wtime := t } }

/-- `RateLimitedConn.SetReadLimit` from `net.go`: returns the error and the
final state of the value-receiver copy. -/
def RateLimitedConn.SetReadLimit (rlc : RateLimitedConn α) (lim : Int) :
    Option String × RateLimitedConn α :=
  if lim < 0 then
    (some "read limit cannot be negative", rlc)
  else
    (none, { rlc with rlim := lim })

/-- `RateLimitedConn.SetWriteLimit` from `net.go`: returns the error and the
final state of the value-receiver copy. -/
def RateLimitedConn.SetWriteLimit (rlc : RateLimitedConn α) (lim : Int) :
    Option String × RateLimitedConn α :=
  if lim < 0 then
    (some "write limit cannot be negative", rlc)
  else
    (none, { rlc with wlim := lim })

/-- One method call on the wrapper, with its oracle inputs. -/
inductive Op
  | read (un : Int) (uerr : Option String) (now1 now2 : Int)
  | write (un : Int) (uerr : Option String) (now1 now2 : Int)
  | setReadLimit (lim : Int)
  | setWriteLimit (lim : Int)
  deriving Repr, DecidableEq

/-- Go value-receiver call semantics: the method body runs on a copy of the
receiver; `updated` is the copy's final state and is discarded, `kept` is the
caller's own wrapper value, which the call leaves untouched. -/
def discardCopy (_updated kept : RateLimitedConn α) : RateLimitedConn α := kept

/-- The caller-visible state transition of one method call on a wrapper held
as a Go value: run the method (computing the updated receiver copy) and
discard the copy, per Go's value-receiver semantics. -/
def callerStep (s : RateLimitedConn α) : Op → RateLimitedConn α
  | Op.read un uerr n1 n2 => discardCopy (s.Read un uerr n1 n2).recv s
  | Op.write un uerr n1 n2 => discardCopy (s.Write un uerr n1 n2).recv s
  | Op.setReadLimit lim => discardCopy (s.SetReadLimit lim).2 s
  | Op.setWriteLimit lim => discardCopy (s.SetWriteLimit lim).2 s

/-- Caller-visible state after a sequence of method calls. -/
def runOps (s : RateLimitedConn α) : List Op → RateLimitedConn α
  | [] => s
  | op :: ops => runOps (callerStep s op) ops

/-- Division that signals a zero divisor instead of defaulting, used to show
the throttling computation never divides by zero. -/
def divChecked (a b : Int) : Option Int :=
  if b = 0 then none else some (a / b)

/-- `RateLimitedConn.Read` with the division guarded by `divChecked`:
returns `none` iff the computation would divide by zero. -/
def RateLimitedConn.ReadChecked (rlc : RateLimitedConn α) (un : Int)
    (uerr : Option String) (now1 now2 : Int) : Option (OpOutcome α) :=
  if rlc.rlim ≤ 0 then
    some { n := un, err := uerr, sleep := 0, recv := rlc }
  else
    let rlc1 := if rlc.rtime = 0 then { rlc with rtime := now1 } else rlc
    let t := now2
    let d := t - rlc1.rtime
    (divChecked oneSecondNs rlc.rlim).map fun timePerByte =>
      let timeForNBytes := timePerByte * un
      let slept := if 0 < un ∧ d < timeForNBytes then timeForNBytes - d else 0
      { n := un, err := uerr, sleep := slept, recv := { rlc1 with rtime := t } }

/-- `RateLimitedConn.Write` with the division guarded by `divChecked`. -/
def RateLimitedConn.WriteChecked (rlc : RateLimitedConn α) (un : Int)
    (uerr : Option String) (now1 now2 : Int) : Option (OpOutcome α) :=
  if rlc.wlim ≤ 0 then
    some { n := un, err := uerr, sleep := 0, recv := rlc }
  else
    let rlc1 := if rlc.wtime = 0 then { rlc with wtime := now1 } else rlc
    let t := now2
    let d := t - rlc1.wtime
    (divChecked oneSecondNs rlc.wlim).map fun timePerByte =>
      let timeForNBytes := timePerByte * un
      let slept := if 0 < un ∧ d < timeForNBytes then timeForNBytes - d else 0
      { n := un, err := uerr, sleep := slept, recv := { rlc1 with wtime := t } }

/-- Replace the write-side fields of the receiver copy in an outcome;
used to state that `Read` neither reads nor writes the write-side state. -/
def substWriteSide (o : OpOutcome α) (v t : Int) : OpOutcome α :=
  { o with recv := { o.recv with wlim := v, wtime := t } }

/-- Replace the read-side fields of the receiver copy in an outcome;
used to state that `Write` neither reads nor writes the read-side state. -/
def substReadSide (o : OpOutcome α) (v t : Int) : OpOutcome α :=
  { o with recv := { o.recv with rlim := v, rtime := t } }

/-- Claim C3: all four exported methods are declared on value receivers, so
field assignments mutate only the local receiver copy: the caller-visible
wrapper state after any method call (and any sequence of calls) equals the
state before it, while the discarded local copy does get updated (shown at a
concrete input). -/
theorem valueReceiver_frame :
    (∀ (α : Type) (s : RateLimitedConn α) (op : Op), callerStep s op = s)
    ∧ (∀ (α : Type) (s : RateLimitedConn α) (ops : List Op), runOps s ops = s)
    ∧ ((RateLimitedConn.mk () 0 0 0 0).SetReadLimit 7).2
        ≠ RateLimitedConn.mk () 0 0 0 0 := by
  refine ⟨fun α s op => by cases op <;> rfl, fun α s ops => ?_, by decide⟩
  induction ops generalizing s with
  | nil => rfl
  | cons op ops ih => cases op <;> exact ih _

/-- Claim C4: `New conn r w` succeeds iff both limits are non-negative; a
negative member yields the `InvalidArgument` error (and no wrapper); on
success the wrapper stores exactly the given limits and both timestamps
start at zero. -/
theorem New_validation (α : Type) (c : α) (r w : Int) :
    ((∃ s, New c r w = Except.ok s) ↔ 0 ≤ r ∧ 0 ≤ w)
    ∧ (r < 0 ∨ w < 0 →
        New c r w = Except.error "read/write limits cannot be negative")
    ∧ (0 ≤ r → 0 ≤ w →
        New c r w = Except.ok
          { conn := c, rlim := r, wlim := w, rtime := 0, wtime := 0 }) := by
  by_cases h : r < 0 ∨ w < 0
  · rw [New, if_pos h]
    refine ⟨⟨?_, ?_⟩, fun _ => rfl, fun hr hw => absurd h (by omega)⟩
    · rintro ⟨s, hs⟩
      cases hs
    · intro hrw
      exact absurd h (by omega)
  · rw [New, if_neg h]
    exact ⟨⟨fun _ => by omega, fun _ => ⟨_, rfl⟩⟩,
      fun hneg => absurd hneg h, fun _ _ => rfl⟩

/-- Concrete instance of `New_validation`: `New` at limits `(3, 5)` succeeds
and stores them with unset timestamps. -/
theorem New_validation_witness :
    New (0 : Int) 3 5 = Except.ok
      { conn := 0, rlim := 3, wlim := 5, rtime := 0, wtime := 0 } :=
  (New_validation Int 0 3 5).2.2 (by decide) (by decide)

/-- Claim C6: for every call to `Read` or `Write`, under any limit setting,
the byte count and error returned to the caller are exactly those of the
single delegated underlying call; throttling alters neither. -/
theorem passthrough_result :
    ∀ (α : Type) (s : RateLimitedConn α) (un : Int) (uerr : Option String)
      (n1 n2 : Int),
      (s.Read un uerr n1 n2).n = un ∧ (s.Read un uerr n1 n2).err = uerr
      ∧ (s.Write un uerr n1 n2).n = un
      ∧ (s.Write un uerr n1 n2).err = uerr := by
  intro α s un uerr n1 n2
  refine ⟨?_, ?_, ?_, ?_⟩ <;>
    · simp only [RateLimitedConn.Read, RateLimitedConn.Write]
      split <;> rfl

/-- Claim C5: for a throttled read (resp. write) with a positive limit `L`
and a stored baseline timestamp, with `d` the elapsed time from the baseline
to the post-transfer clock reading, the sleep is `timePerByte * n - d` with
`timePerByte = 10^9 / L` (truncating integer division) exactly when
`0 < n ∧ d < timePerByte * n`, and `0` otherwise. -/
theorem throttle_sleep_formula (α : Type) (s : RateLimitedConn α) (un : Int)
    (uerr : Option String) (n1 n2 : Int) :
    (0 < s.rlim → s.rtime ≠ 0 →
      (s.Read un uerr n1 n2).sleep =
        (if 0 < un ∧ n2 - s.rtime < oneSecondNs / s.rlim * un
         then oneSecondNs / s.rlim * un - (n2 - s.rtime) else 0))
    ∧ (0 < s.wlim → s.wtime ≠ 0 →
      (s.Write un uerr n1 n2).sleep =
        (if 0 < un ∧ n2 - s.wtime < oneSecondNs / s.wlim * un
         then oneSecondNs / s.wlim * un - (n2 - s.wtime) else 0)) := by
  constructor
  · intro hl ht
    simp only [RateLimitedConn.Read]
    rw [if_neg (by omega), if_neg ht]
  · intro hl ht
    simp only [RateLimitedConn.Write]
    rw [if_neg (by omega), if_neg ht]

/-- Concrete instance of `throttle_sleep_formula`: limits `1000`/`2000`
bytes per second, baselines `5000`/`7000`, a 2-byte transfer finishing at
time `5100` sleeps `2*10^6 - 100` on the read side, and at time `7100`
sleeps `2*(10^9/2000) - 100` on the write side. -/
theorem throttle_sleep_formula_witness :
    ((RateLimitedConn.mk () 1000 2000 5000 7000).Read 2 none 0 5100).sleep
        = 1999900
    ∧ ((RateLimitedConn.mk () 1000 2000 5000 7000).Write 2 none 0 7100).sleep
        = 999900 := by
  have h := throttle_sleep_formula Unit (RateLimitedConn.mk () 1000 2000 5000 7000)
    2 none 0 5100
  have h' := throttle_sleep_formula Unit (RateLimitedConn.mk () 1000 2000 5000 7000)
    2 none 0 7100
  exact ⟨(h.1 (by decide) (by decide)).trans (by decide),
    (h'.2 (by decide) (by decide)).trans (by decide)⟩

/-- Claim C7: with `readLimit = 0` (resp. `writeLimit = 0`), `Read` (resp.
`Write`) returns the delegated result unmodified, sleeps `0`, and leaves
even the local receiver copy untouched (no timestamp read or update: the
whole outcome is the fast-path record, independent of the timestamps). -/
theorem unlimited_fast_path (α : Type) (s : RateLimitedConn α) (un : Int)
    (uerr : Option String) (n1 n2 : Int) :
    (s.rlim = 0 →
      s.Read un uerr n1 n2 = { n := un, err := uerr, sleep := 0, recv := s })
    ∧ (s.wlim = 0 →
      s.Write un uerr n1 n2 =
        { n := un, err := uerr, sleep := 0, recv := s }) := by
  constructor
  · intro h
    simp only [RateLimitedConn.Read]
    rw [if_pos (by omega)]
  · intro h
    simp only [RateLimitedConn.Write]
    rw [if_pos (by omega)]

/-- Concrete instance of `unlimited_fast_path`: with both limits `0`, a read
and a write of 4096 bytes sleep `0` and leave the wrapper untouched. -/
theorem unlimited_fast_path_witness :
    (RateLimitedConn.mk () 0 0 0 0).Read 4096 none 1 2 =
      { n := 4096, err := none, sleep := 0, recv := RateLimitedConn.mk () 0 0 0 0 }
    ∧ (RateLimitedConn.mk () 0 0 0 0).Write 4096 none 1 2 =
      { n := 4096, err := none, sleep := 0,
        recv := RateLimitedConn.mk () 0 0 0 0 } :=
  ⟨(unlimited_fast_path Unit (RateLimitedConn.mk () 0 0 0 0) 4096 none 1 2).1 rfl,
   (unlimited_fast_path Unit (RateLimitedConn.mk () 0 0 0 0) 4096 none 1 2).2 rfl⟩

/-- Claim C8: direction independence.  `Read` and `SetReadLimit` neither
read nor mutate the write-side fields: running them on a state whose
write-side fields are replaced by arbitrary values gives the same outcome up
to carrying those values through unchanged, and the receiver copy keeps the
input's write-side fields.  Symmetrically for `Write` and `SetWriteLimit`
with the read-side fields. -/
theorem direction_independence (α : Type) (s : RateLimitedConn α) (un : Int)
    (uerr : Option String) (n1 n2 v t lim : Int) :
    (({ s with wlim := v, wtime := t } : RateLimitedConn α).Read un uerr n1 n2
        = substWriteSide (s.Read un uerr n1 n2) v t)
    ∧ (s.Read un uerr n1 n2).recv.wlim = s.wlim
    ∧ (s.Read un uerr n1 n2).recv.wtime = s.wtime
    ∧ (({ s with rlim := v, rtime := t } : RateLimitedConn α).Write un uerr n1 n2
        = substReadSide (s.Write un uerr n1 n2) v t)
    ∧ (s.Write un uerr n1 n2).recv.rlim = s.rlim
    ∧ (s.Write un uerr n1 n2).recv.rtime = s.rtime
    ∧ (({ s with wlim := v, wtime := t } : RateLimitedConn α).SetReadLimit lim
        = ((s.SetReadLimit lim).1,
           { (s.SetReadLimit lim).2 with wlim := v, wtime := t }))
    ∧ (s.SetReadLimit lim).2.wlim = s.wlim
    ∧ (s.SetReadLimit lim).2.wtime = s.wtime
    ∧ (({ s with rlim := v, rtime := t } : RateLimitedConn α).SetWriteLimit lim
        = ((s.SetWriteLimit lim).1,
           { (s.SetWriteLimit lim).2 with rlim := v, rtime := t }))
    ∧ (s.SetWriteLimit lim).2.rlim = s.rlim
    ∧ (s.SetWriteLimit lim).2.rtime = s.rtime := by
  refine ⟨?_, ?_, ?_, ?_, ?_, ?_, ?_, ?_, ?_, ?_, ?_, ?_⟩ <;>
    · simp only [RateLimitedConn.Read, RateLimitedConn.Write,
        RateLimitedConn.SetReadLimit, RateLimitedConn.SetWriteLimit,
        substWriteSide, substReadSide]
      split <;> (try split) <;> rfl

/-- Claim C10: the integer division `10^9 / limit` in `Read`/`Write` is
evaluated only on the branch where the limit is strictly positive, so the
guarded variants (which signal a zero divisor) never fail and agree with the
unguarded operations on every input and state. -/
theorem division_never_by_zero :
    ∀ (α : Type) (s : RateLimitedConn α) (un : Int) (uerr : Option String)
      (n1 n2 : Int),
      s.ReadChecked un uerr n1 n2 = some (s.Read un uerr n1 n2)
      ∧ s.WriteChecked un uerr n1 n2 = some (s.Write un uerr n1 n2) := by
  intro α s un uerr n1 n2
  constructor
  · simp only [RateLimitedConn.ReadChecked, RateLimitedConn.Read, divChecked]
    split
    · rfl
    · rw [if_neg (show ¬s.rlim = 0 by omega)]
      rfl
  · simp only [RateLimitedConn.WriteChecked, RateLimitedConn.Write, divChecked]
    split
    · rfl
    · rw [if_neg (show ¬s.wlim = 0 by omega)]
      rfl

/-- Claim C1 is false on the code, at a concrete input: construct a wrapper
with read limit `1000` B/s; its very first read (1 byte, delegated transfer
lasting from time `1000` to `1100`) sleeps `10^9/1000 * 1 - 100 = 999900`
nanoseconds — the first operation after the limit is set IS delayed — and
the caller-visible wrapper after the call still has `rtime = 0`, so the
first operation's completion time `1100` does not become the baseline of
the second operation. -/
theorem firstOp_delay_cex :
    New () 1000 0 = Except.ok (RateLimitedConn.mk () 1000 0 0 0)
    ∧ ((RateLimitedConn.mk () 1000 0 0 0).Read 1 none 1000 1100).sleep = 999900
    ∧ ((RateLimitedConn.mk () 1000 0 0 0).Read 1 none 1000 1100).sleep ≠ 0
    ∧ callerStep (RateLimitedConn.mk () 1000 0 0 0) (Op.read 1 none 1000 1100)
        = RateLimitedConn.mk () 1000 0 0 0
    ∧ (callerStep (RateLimitedConn.mk () 1000 0 0 0)
        (Op.read 1 none 1000 1100)).rtime ≠ 1100 := by
  refine ⟨rfl, by decide, by decide, rfl, by decide⟩

/-- Claim C1 (amended): for a direction with a positive limit whose stored
timestamp is unset, the operation lazily initializes the baseline to the
current clock reading `now1`, so it sleeps `allowed - (now2 - now1)` exactly
when `0 < n` and `now2 - now1 < allowed` (the elapsed time is the
operation's own transfer duration — the first operation is delayed whenever
the transfer beats the allowed time); the local receiver copy records the
transfer-completion time `now2` (before any sleep), but the methods use
value receivers, so the caller-visible wrapper is unchanged by every call
and no baseline persists to the next operation. -/
theorem firstOp_actual_behavior (α : Type) (s : RateLimitedConn α) (un : Int)
    (uerr : Option String) (n1 n2 : Int) :
    (0 < s.rlim → s.rtime = 0 →
      ((s.Read un uerr n1 n2).sleep =
        (if 0 < un ∧ n2 - n1 < oneSecondNs / s.rlim * un
         then oneSecondNs / s.rlim * un - (n2 - n1) else 0)
       ∧ (s.Read un uerr n1 n2).recv.rtime = n2))
    ∧ (0 < s.wlim → s.wtime = 0 →
      ((s.Write un uerr n1 n2).sleep =
        (if 0 < un ∧ n2 - n1 < oneSecondNs / s.wlim * un
         then oneSecondNs / s.wlim * un - (n2 - n1) else 0)
       ∧ (s.Write un uerr n1 n2).recv.wtime = n2))
    ∧ (∀ op, callerStep s op = s) := by
  refine ⟨?_, ?_, fun op => by cases op <;> rfl⟩
  · intro hl ht
    simp only [RateLimitedConn.Read]
    rw [if_neg (by omega), if_pos ht]
    exact ⟨rfl, rfl⟩
  · intro hl ht
    simp only [RateLimitedConn.Write]
    rw [if_neg (by omega), if_pos ht]
    exact ⟨rfl, rfl⟩

/-- Concrete instance of `firstOp_actual_behavior`: the wrapper of
`firstOp_delay_cex` (read limit `1000`, unset baseline) sleeps `999900` on a
1-byte first read transferred between times `1000` and `1100`, records
`1100` only on the discarded copy, and the caller-visible state is
unchanged by any call. -/
theorem firstOp_actual_behavior_witness :
    (((RateLimitedConn.mk () 1000 2000 0 0).Read 1 none 1000 1100).sleep
        = 999900
      ∧ ((RateLimitedConn.mk () 1000 2000 0 0).Read 1 none 1000 1100).recv.rtime
        = 1100)
    ∧ callerStep (RateLimitedConn.mk () 1000 2000 0 0) (Op.setReadLimit 5)
        = RateLimitedConn.mk () 1000 2000 0 0 := by
  have h := firstOp_actual_behavior Unit (RateLimitedConn.mk () 1000 2000 0 0)
    1 none 1000 1100
  refine ⟨⟨((h.1 (by decide) (by decide)).1).trans (by decide),
    (h.1 (by decide) (by decide)).2⟩, h.2.2 _⟩

/-- Claim C2 is right about the code's documented intent, but the code
drops the update: `SetReadLimit 1000` on a wrapper with read limit `0`
returns nil error, yet the caller-visible limit is still `0`, so the next
read (100000 bytes, 1 ns after its baseline) takes the unthrottled fast
path and sleeps `0`; had the limit been stored, the same read would have
slept `10^6 * 100000 - 1` nanoseconds. -/
theorem setLimit_discarded_bug :
    ((RateLimitedConn.mk () 0 0 0 0).SetReadLimit 1000).1 = none
    ∧ callerStep (RateLimitedConn.mk () 0 0 0 0) (Op.setReadLimit 1000)
        = RateLimitedConn.mk () 0 0 0 0
    ∧ ((RateLimitedConn.mk () 0 0 0 0).Read 100000 none 1000 1001).sleep = 0
    ∧ ((RateLimitedConn.mk () 1000 0 0 0).Read 100000 none 1000 1001).sleep
        = 99999999999
    ∧ ((RateLimitedConn.mk () 0 0 0 0).SetWriteLimit 1000).1 = none
    ∧ callerStep (RateLimitedConn.mk () 0 0 0 0) (Op.setWriteLimit 1000)
        = RateLimitedConn.mk () 0 0 0 0
    ∧ ((RateLimitedConn.mk () 0 0 0 0).Write 100000 none 1000 1001).sleep
        = 0 := by
  refine ⟨rfl, rfl, by decide, by decide, rfl, rfl, by decide⟩

/-- Claim C9: the constructor's validation result does not depend on the
underlying stream (same success/failure and same error message for any two
streams), the stream value is stored in the wrapper untouched, and the
constructor can be called with an absent stream (`none`) purely to validate
a limit pair. -/
theorem construction_stream_frame (α : Type) (c c' : α) (r w : Int) :
    (New c r w).isOk = (New c' r w).isOk
    ∧ (∀ e, New c r w = Except.error e ↔ New c' r w = Except.error e)
    ∧ (∀ s, New c r w = Except.ok s → s.conn = c)
    ∧ ((∃ s, New (none : Option α) r w = Except.ok s) ↔ 0 ≤ r ∧ 0 ≤ w) := by
  by_cases h : r < 0 ∨ w < 0
  · rw [New, New, New, if_pos h, if_pos h, if_pos h]
    refine ⟨rfl, fun e => Iff.rfl, ?_, ?_⟩
    · rintro s hs
      cases hs
    · constructor
      · rintro ⟨s, hs⟩
        cases hs
      · intro hrw
        exact absurd h (by omega)
  · rw [New, New, New, if_neg h, if_neg h, if_neg h]
    refine ⟨rfl, fun e => ⟨fun hs => (nomatch hs), fun hs => (nomatch hs)⟩, ?_, ?_⟩
    · rintro s hs
      cases hs
      rfl
    · exact ⟨fun _ => by omega, fun _ => ⟨_, rfl⟩⟩

/-- Concrete instance of `construction_stream_frame`: the wrapper built over
the stream `7` stores `7`, and `New` over an absent stream validates the
pair `(3, 5)`. -/
theorem construction_stream_frame_witness :
    (RateLimitedConn.mk (7 : Int) 3 5 0 0).conn = 7
    ∧ ((∃ s, New (none : Option Int) 3 5 = Except.ok s)
        ↔ 0 ≤ (3 : Int) ∧ 0 ≤ (5 : Int)) :=
  ⟨(construction_stream_frame Int 7 8 3 5).2.2.1 _ rfl,
   (construction_stream_frame Int 7 8 3 5).2.2.2⟩

end GoRatelimit
